import Mathlib

/- Verification of the SmartTravel travel-planner view layer
   (smart_travel/travel/views.py): a shallow embedding of the city lookup,
   weather lookup, route lookup, travel-advice rule, query persistence and
   history listing, with the external HTTP/storage world passed in as
   explicit parameters (an `Except String` value stands for "the call
   returned this JSON" vs "the call raised this exception"; an `Option`
   field stands for a JSON key that may be absent).  Numbers are modelled
   as exact rationals; `round q n` is modelled as half-up decimal rounding. -/

namespace SmartTravel

/-- ASCII-wise lowercase; models Python `str.lower()`. -/
def strLower (s : String) : String := ⟨s.data.map Char.toLower⟩

/-- Boolean test that the first character list starts the second. -/
def isPrefOf : List Char → List Char → Bool
  | [], _ => true
  | _ :: _, [] => false
  | a :: as, b :: bs => a == b && isPrefOf as bs

/-- Boolean substring test on character lists; models Python `needle in haystack`. -/
def isSubOf (n : List Char) : List Char → Bool
  | [] => n.isEmpty
  | b :: bs => isPrefOf n (b :: bs) || isSubOf n bs

/-- Models the Python expression `needle in haystack`. -/
def containsSub (needle haystack : String) : Bool :=
  isSubOf needle.data haystack.data

/-- Python `round(q, 1)` (ties modelled half-up; no claim input hits a tie). -/
def round1 (q : ℚ) : ℚ := (⌊q * 10 + 1/2⌋ : ℚ) / 10

/-- Python `round(q, 2)` (ties modelled half-up; no claim input hits a tie). -/
def round2 (q : ℚ) : ℚ := (⌊q * 100 + 1/2⌋ : ℚ) / 100

/-- A Python value that is either a number or a string (the weather
`temperature` field holds a number on success and `''` on fallback). -/
inductive PyVal where
  | num (q : ℚ)
  | str (s : String)
deriving DecidableEq

/-- A weather dict as consumed by `get_travel_advice`: either key may be absent. -/
structure WeatherDict where
  temperature : Option PyVal
  description : Option String
deriving DecidableEq

/-- The list `['rain', 'snow', 'storm', 'thunderstorm']` from `get_travel_advice`. -/
def bad_weather_conditions : List String := ["rain", "snow", "storm", "thunderstorm"]

/-- The expression `weather['description'] if weather and 'description' in weather else ''`. -/
def descOf : Option WeatherDict → String
  | some w =>
    match w.description with
    | some s => s
    | none => ""
  | none => ""

/-- The advisory string of the bad-weather and late-hour branches. -/
def delayMsg : String := "Consider delaying your trip due to bad weather."

/-- The advisory string of the default branch. -/
def goodMsg : String := "Good time to start your trip!"

/-- Models `get_travel_advice(weather_start, weather_end, current_time)`; the
timestamp enters only through `current_time.hour`, so the model takes the
hour (a natural number, `< 24` for a real timestamp) directly. -/
def get_travel_advice (weather_start weather_end : Option WeatherDict)
    (current_hour : ℕ) : String :=
  let start_desc := descOf weather_start
  let end_desc := descOf weather_end
  let start_weather_bad :=
    bad_weather_conditions.any fun condition => containsSub condition (strLower start_desc)
  let end_weather_bad :=
    bad_weather_conditions.any fun condition => containsSub condition (strLower end_desc)
  if start_weather_bad || end_weather_bad then
    "Consider delaying your trip due to bad weather."
  else if 23 ≤ current_hour ∨ current_hour ≤ 4 then
    "Consider delaying your trip due to bad weather."
  else
    "Good time to start your trip!"

/-- Spec-side reading of "the description contains one of the substrings
rain, snow, storm, thunderstorm (case-insensitive)". -/
def SpecBadWeather (desc : String) : Prop :=
  ∃ c ∈ bad_weather_conditions, c.data <:+: (strLower desc).data

instance SpecBadWeather.instDecidable (desc : String) : Decidable (SpecBadWeather desc) :=
  inferInstanceAs (Decidable (∃ c ∈ bad_weather_conditions, c.data <:+: (strLower desc).data))

lemma isPrefOf_iff (n h : List Char) : isPrefOf n h = true ↔ n <+: h := by
  induction n generalizing h with
  | nil => exact ⟨fun _ => List.nil_prefix, fun _ => rfl⟩
  | cons a as ih =>
    cases h with
    | nil =>
      show false = true ↔ _
      rw [List.prefix_nil]
      simp
    | cons b bs =>
      show (a == b && isPrefOf as bs) = true ↔ _
      rw [Bool.and_eq_true, beq_iff_eq, ih, List.cons_prefix_cons]

lemma isSubOf_iff (n h : List Char) : isSubOf n h = true ↔ n <:+: h := by
  induction h with
  | nil =>
    show n.isEmpty = true ↔ _
    rw [List.isEmpty_iff, List.infix_nil]
  | cons b bs ih =>
    show (isPrefOf n (b :: bs) || isSubOf n bs) = true ↔ _
    rw [Bool.or_eq_true, isPrefOf_iff, ih, List.infix_cons_iff]

lemma containsSub_iff (needle haystack : String) :
    containsSub needle haystack = true ↔ needle.data <:+: haystack.data :=
  isSubOf_iff _ _

lemma any_bad_iff (d : String) :
    (bad_weather_conditions.any fun condition => containsSub condition (strLower d)) = true
      ↔ SpecBadWeather d := by
  simp only [List.any_eq_true, containsSub_iff, SpecBadWeather]

/-- One entry of the geo API's `data` array; every field is read with
`.get(key, default)` so each is optional. -/
structure GeoCityData where
  name : Option String
  latitude : Option ℚ
  longitude : Option ℚ
deriving DecidableEq

/-- The decoded geo API response body; `data.get('data', [])` makes the
`data` key optional. -/
structure GeoData where
  data : Option (List GeoCityData)
deriving DecidableEq

/-- A reshaped city record as built by `get_bc_cities`. -/
structure City where
  name : String
  latitude : ℚ
  longitude : ℚ
deriving DecidableEq

/-- The reshaping loop body of `get_bc_cities`. -/
def cityListOf (g : GeoData) : List City :=
  (g.data.getD []).map fun city_data =>
    { name := city_data.name.getD ""
      latitude := city_data.latitude.getD 0
      longitude := city_data.longitude.getD 0 }

/-- Models `get_bc_cities()`: the HTTP GET and `response.json()` stand outside any
try/except, so a transport or decode failure (the `.error` case of the
argument) propagates unchanged; on success the `data` array is reshaped. -/
def get_bc_cities (resp : Except String GeoData) : Except String (List City) :=
  match resp with
  | .error e => .error e
  | .ok g => .ok (cityListOf g)

/-- The scanning loop of `get_coordinates`: first case-insensitive exact
name match wins, otherwise the `(None, None)` sentinel. -/
def coords_scan (cities : List City) (city : String) : Option ℚ × Option ℚ :=
  match cities with
  | [] => (none, none)
  | city_data :: rest =>
    if strLower city_data.name = strLower city then
      (some city_data.latitude, some city_data.longitude)
    else
      coords_scan rest city

/-- Models `get_coordinates(city)`: calls `get_bc_cities()` (whose failure
propagates — no guard here either) and scans the result. -/
def get_coordinates (resp : Except String GeoData) (city : String) :
    Except String (Option ℚ × Option ℚ) :=
  match get_bc_cities resp with
  | .error e => .error e
  | .ok cities => .ok (coords_scan cities city)

/-- The decoded weather API response body: `data['main']['temp']` and
`data['weather'][0]['description']` are the two key paths read inside the
try block; `none` means the path is absent and the access raises. -/
structure WeatherData where
  main_temp : Option ℚ
  weather0_description : Option String
deriving DecidableEq

/-- The fallback weather dict `{'temperature': '', 'description': ''}`. -/
def weatherFallback : WeatherDict :=
  { temperature := some (PyVal.str ""), description := some "" }

/-- Models `get_weather(city)`: `requests.get` and `response.json()` sit before the
try block, so a transport/decode failure (the `.error` case) propagates;
inside the try block a failing key access yields the fallback dict, and on
success the Kelvin temperature is converted to Celsius and rounded. -/
def get_weather (resp : Except String WeatherData) : Except String WeatherDict :=
  match resp with
  | .error e => .error e
  | .ok data =>
    match data.main_temp, data.weather0_description with
    | some temp_kelvin, some description =>
      .ok { temperature := some (PyVal.num (round1 (temp_kelvin - 27315/100)))
            description := some description }
    | _, _ => .ok weatherFallback

/-- One entry of a segment's `steps` array; fields read with `.get`. -/
structure StepData where
  instruction : Option String
  distance : Option ℚ
deriving DecidableEq

/-- One entry of a route's `segments` array; `distance`, `duration` and
`steps` are read with `.get(key, default)`. -/
structure SegmentData where
  distance : Option ℚ
  duration : Option ℚ
  steps : Option (List StepData)
deriving DecidableEq

/-- One entry of the routing response's `routes` array; `route['segments']`
is a raising key access, so the key is optional here. -/
structure RouteInfo where
  segments : Option (List SegmentData)
deriving DecidableEq

/-- The decoded routing response body; `'routes' not in data` makes the
`routes` key optional. -/
structure RoutesData where
  routes : Option (List RouteInfo)
deriving DecidableEq

/-- A reshaped step as built by `get_route`. -/
structure Step where
  instruction : String
  distance : ℚ
deriving DecidableEq

/-- The dict returned by `get_route`. -/
structure RouteResult where
  distance : ℚ
  duration : ℚ
  steps : List Step
deriving DecidableEq

/-- The zeroed fallback `{'distance': 0, 'duration': 0, 'steps': []}`. -/
def routeFallback : RouteResult :=
  { distance := 0, duration := 0, steps := [] }

/-- The body of `get_route`'s try block after the POST succeeded: the
missing/empty-`routes` early return, the `routes[0]`/`segments[0]`
accesses (an index error is caught by the except clause and yields the
fallback), unit conversions and the step-reshaping loop. -/
def parse_route (data : RoutesData) : RouteResult :=
  match data.routes with
  | none => routeFallback
  | some [] => routeFallback
  | some (route :: _) =>
    match route.segments with
    | none => routeFallback
    | some [] => routeFallback
    | some (segment :: _) =>
      { distance := round1 (segment.distance.getD 0 / 1000)
        duration := round1 (segment.duration.getD 0 / 60)
        steps := (segment.steps.getD []).map fun step =>
          { instruction := step.instruction.getD ""
            distance := round2 (step.distance.getD 0 / 1000) } }

/-- The `[longitude, latitude]` pair `get_route` puts into the request body
for one endpoint. -/
def lonLat (cities : List City) (city : String) : Option ℚ × Option ℚ :=
  ((coords_scan cities city).2, (coords_scan cities city).1)

/-- Models `get_route(start, end)`: resolves both endpoints through
`get_coordinates` (outside the try block — a geo failure propagates), then
POSTs the `[longitude, latitude]` pairs to the routing API; `api` maps the
two coordinate pairs to that call's outcome.  An exception during the call
or parsing (the `.error` case) is caught and yields the zeroed fallback. -/
def get_route (geo : Except String GeoData)
    (api : Option ℚ × Option ℚ → Option ℚ × Option ℚ → Except String RoutesData)
    (start end_ : String) : Except String RouteResult :=
  match get_coordinates geo start with
  | .error e => .error e
  | .ok _ =>
    match get_coordinates geo end_ with
    | .error e => .error e
    | .ok _ =>
      match get_bc_cities geo with
      | .error e => .error e
      | .ok cities =>
        match api (lonLat cities start) (lonLat cities end_) with
        | .error _ => .ok routeFallback
        | .ok data => .ok (parse_route data)

/-- The route summary dict serialized by `index` before saving:
`{'distance': ..., 'duration': ..., 'steps_count': len(steps)}`. -/
structure RouteSummary where
  distance : ℚ
  duration : ℚ
  steps_count : ℕ
deriving DecidableEq

/-- The summary `index` builds from `route_details` (with its
`if route_details else 0` guards) and passes to `json.dumps`. -/
def route_summary_of (route_details : Option RouteResult) : RouteSummary :=
  { distance :=
      match route_details with
      | some r => r.distance
      | none => 0
    duration :=
      match route_details with
      | some r => r.duration
      | none => 0
    steps_count :=
      match route_details with
      | some r => r.steps.length
      | none => 0 }

/-- A stored travel-query document (timestamps are modelled as integers). -/
structure TravelRecord where
  start_city : String
  end_city : String
  timestamp : ℤ
  route_summary : RouteSummary
deriving DecidableEq

/-- The comparison `collection.find().sort('timestamp', -1)` asks the store
to sort by: timestamp descending. -/
def tsDesc (a b : TravelRecord) : Bool := decide (b.timestamp ≤ a.timestamp)

/-- Models `get_travel_history()`: `client` is `none` when `get_mongodb_client`
returned `None` (its constructor raised) — then the `if client:` body is
skipped and the function falls through, returning Python `None` (`none`
here).  `some (.error e)` means the find/sort raised: the except clause
returns `[]`.  `some (.ok recs)` means the store holds `recs`, and the
store's sort is modelled by `mergeSort` with the descending comparison. -/
def get_travel_history (client : Option (Except String (List TravelRecord))) :
    Option (List TravelRecord) :=
  match client with
  | none => none
  | some (.error _) => some []
  | some (.ok recs) => some (recs.mergeSort tsDesc)

/-- Holds when the routing call raised, or returned data whose `routes`
key is missing or empty — the situations `get_route` turns into the
zeroed fallback. -/
def no_route_data : Except String RoutesData → Prop
  | .error _ => True
  | .ok data => data.routes = none ∨ data.routes = some []

lemma coords_scan_no_match (cities : List City) (city : String)
    (hno : ∀ c ∈ cities, strLower c.name ≠ strLower city) :
    coords_scan cities city = (none, none) := by
  induction cities with
  | nil => rfl
  | cons a rest ih =>
    simp only [coords_scan]
    rw [if_neg (hno a (List.mem_cons_self a rest))]
    exact ih fun c hc => hno c (List.mem_cons_of_mem a hc)

lemma coords_scan_match (cities : List City) (city : String) :
    ∀ c ∈ cities, strLower c.name = strLower city →
      ∃ c', c' ∈ cities ∧ strLower c'.name = strLower city ∧
        coords_scan cities city = (some c'.latitude, some c'.longitude) := by
  induction cities with
  | nil => intro c hc; cases hc
  | cons a rest ih =>
    intro c hc hmatch
    by_cases ha : strLower a.name = strLower city
    · refine ⟨a, List.mem_cons_self a rest, ha, ?_⟩
      simp only [coords_scan]
      rw [if_pos ha]
    · rcases List.mem_cons.mp hc with rfl | hcr
      · exact absurd hmatch ha
      · rcases ih c hcr hmatch with ⟨c', hc', hm', heq⟩
        refine ⟨c', List.mem_cons_of_mem a hc', hm', ?_⟩
        simp only [coords_scan]
        rw [if_neg ha]
        exact heq

lemma parse_route_eq (data : RoutesData) (route : RouteInfo) (rs : List RouteInfo)
    (segment : SegmentData) (ss : List SegmentData)
    (hroutes : data.routes = some (route :: rs))
    (hsegs : route.segments = some (segment :: ss)) :
    parse_route data =
      { distance := round1 (segment.distance.getD 0 / 1000)
        duration := round1 (segment.duration.getD 0 / 60)
        steps := (segment.steps.getD []).map fun step =>
          { instruction := step.instruction.getD ""
            distance := round2 (step.distance.getD 0 / 1000) } } := by
  rcases route with ⟨segs⟩
  rcases data with ⟨dr⟩
  have hdr : dr = some (RouteInfo.mk segs :: rs) := hroutes
  have hsg : segs = some (segment :: ss) := hsegs
  subst hdr
  subst hsg
  rfl

lemma tsDesc_trans : ∀ a b c : TravelRecord,
    tsDesc a b = true → tsDesc b c = true → tsDesc a c = true := by
  intro a b c hab hbc
  simp only [tsDesc, decide_eq_true_eq] at hab hbc ⊢
  exact le_trans hbc hab

lemma tsDesc_total : ∀ a b : TravelRecord, (tsDesc a b || tsDesc b a) = true := by
  intro a b
  simp only [tsDesc, Bool.or_eq_true, decide_eq_true_eq]
  exact le_total b.timestamp a.timestamp

/-- C1: for every pair of weather dicts and every hour of a real timestamp,
`get_travel_advice` returns the delay message exactly when one of the two
descriptions contains a bad-weather substring (case-insensitively) or the
hour is 23 or at most 4, and returns the good-time message in every other
case. -/
theorem c1_advice_delay_iff (ws we : Option WeatherDict) (h : ℕ) (hlt : h < 24) :
    (get_travel_advice ws we h = delayMsg ↔
      SpecBadWeather (descOf ws) ∨ SpecBadWeather (descOf we) ∨ h = 23 ∨ h ≤ 4)
    ∧ (get_travel_advice ws we h = goodMsg ↔
      ¬(SpecBadWeather (descOf ws) ∨ SpecBadWeather (descOf we) ∨ h = 23 ∨ h ≤ 4)) := by
  have h1 := any_bad_iff (descOf ws)
  have h2 := any_bad_iff (descOf we)
  simp only [get_travel_advice]
  split_ifs with hc hh
  · have hd : SpecBadWeather (descOf ws) ∨ SpecBadWeather (descOf we) ∨ h = 23 ∨ h ≤ 4 := by
      rcases (Bool.or_eq_true _ _).mp hc with hx | hx
      · exact Or.inl (h1.mp hx)
      · exact Or.inr (Or.inl (h2.mp hx))
    exact ⟨⟨fun _ => hd, fun _ => rfl⟩,
      ⟨fun hg => absurd hg (by decide), fun hng => absurd hd hng⟩⟩
  · have hd : SpecBadWeather (descOf ws) ∨ SpecBadWeather (descOf we) ∨ h = 23 ∨ h ≤ 4 := by
      rcases hh with hx | hx
      · exact Or.inr (Or.inr (Or.inl (by omega)))
      · exact Or.inr (Or.inr (Or.inr hx))
    exact ⟨⟨fun _ => hd, fun _ => rfl⟩,
      ⟨fun hg => absurd hg (by decide), fun hng => absurd hd hng⟩⟩
  · have hnd : ¬(SpecBadWeather (descOf ws) ∨ SpecBadWeather (descOf we) ∨ h = 23 ∨ h ≤ 4) := by
      intro hd
      rcases hd with hx | hx | hx | hx
      · exact hc ((Bool.or_eq_true _ _).mpr (Or.inl (h1.mpr hx)))
      · exact hc ((Bool.or_eq_true _ _).mpr (Or.inr (h2.mpr hx)))
      · exact hh (Or.inl (by omega))
      · exact hh (Or.inr hx)
    exact ⟨⟨fun hg => absurd hg (by decide), fun hd => absurd hd hnd⟩,
      ⟨fun _ => hnd, fun _ => rfl⟩⟩

/-- Witness for C1: the three concrete examples of the claim — "light rain"
at hour 10 delays, "clear" at hour 2 delays, "clear" at hour 10 is good. -/
theorem c1_advice_delay_iff_witness :
    get_travel_advice (some ⟨none, some "light rain"⟩) (some ⟨none, some "clear"⟩) 10 = delayMsg
    ∧ get_travel_advice (some ⟨none, some "clear"⟩) (some ⟨none, some "clear"⟩) 2 = delayMsg
    ∧ get_travel_advice (some ⟨none, some "clear"⟩) (some ⟨none, some "clear"⟩) 10 = goodMsg := by
  refine ⟨?_, ?_, ?_⟩
  · exact (c1_advice_delay_iff (some ⟨none, some "light rain"⟩) (some ⟨none, some "clear"⟩)
      10 (by decide)).1.mpr (Or.inl (by decide))
  · exact (c1_advice_delay_iff (some ⟨none, some "clear"⟩) (some ⟨none, some "clear"⟩)
      2 (by decide)).1.mpr (Or.inr (Or.inr (Or.inr (by decide))))
  · exact (c1_advice_delay_iff (some ⟨none, some "clear"⟩) (some ⟨none, some "clear"⟩)
      10 (by decide)).2.mpr (by decide)

/-- C2 counterexample: a transport failure in `get_weather` is NOT
swallowed — `requests.get`/`response.json()` sit before the try block, so
the exception propagates to the caller instead of the fallback record
being returned. -/
theorem c2_transport_counterexample :
    get_weather (Except.error "requests.exceptions.ConnectionError")
      = Except.error "requests.exceptions.ConnectionError" := rfl

/-- C2 (amended): a key-access/parsing failure on a successfully fetched
and decoded response is swallowed into the fallback record whose
temperature and description are both the empty string, while a failure of
the HTTP request or of the JSON decode itself propagates to the caller. -/
theorem c2_weather_fallback (data : WeatherData) (e : String)
    (hfail : data.main_temp = none ∨ data.weather0_description = none) :
    get_weather (Except.ok data) = Except.ok weatherFallback
    ∧ weatherFallback = ⟨some (PyVal.str ""), some ""⟩
    ∧ get_weather (Except.error e) = Except.error e := by
  refine ⟨?_, rfl, rfl⟩
  rcases data with ⟨mt, wd⟩
  rcases hfail with hx | hx
  · have : mt = none := hx
    subst this
    rfl
  · have : wd = none := hx
    subst this
    cases mt <;> rfl

/-- Witness for C2: a response lacking the temperature path yields the
fallback; a transport error propagates. -/
theorem c2_weather_fallback_witness :
    get_weather (Except.ok ⟨none, some "clear"⟩) = Except.ok weatherFallback
    ∧ weatherFallback = ⟨some (PyVal.str ""), some ""⟩
    ∧ get_weather (Except.error "timeout") = Except.error "timeout" :=
  c2_weather_fallback ⟨none, some "clear"⟩ "timeout" (Or.inl rfl)

/-- C3: on a successful routing response (a `routes` entry with a
`segments` entry), `get_route` returns the segment's distance in km
rounded to 1 decimal, its duration in minutes rounded to 1 decimal, and
each step's distance in km rounded to 2 decimals; 12345 m become 12.3 km
and 125 s become 2.1 min. -/
theorem c3_route_success_conversions (g : GeoData)
    (api : Option ℚ × Option ℚ → Option ℚ × Option ℚ → Except String RoutesData)
    (s t : String) (data : RoutesData) (route : RouteInfo) (rs : List RouteInfo)
    (segment : SegmentData) (ss : List SegmentData)
    (hapi : api (lonLat (cityListOf g) s) (lonLat (cityListOf g) t) = Except.ok data)
    (hroutes : data.routes = some (route :: rs))
    (hsegs : route.segments = some (segment :: ss)) :
    get_route (Except.ok g) api s t = Except.ok
      { distance := round1 (segment.distance.getD 0 / 1000)
        duration := round1 (segment.duration.getD 0 / 60)
        steps := (segment.steps.getD []).map fun step =>
          { instruction := step.instruction.getD ""
            distance := round2 (step.distance.getD 0 / 1000) } }
    ∧ round1 ((12345 : ℚ) / 1000) = 123/10
    ∧ round1 ((125 : ℚ) / 60) = 21/10 := by
  refine ⟨?_, by norm_num [round1], by norm_num [round1]⟩
  show (match api (lonLat (cityListOf g) s) (lonLat (cityListOf g) t) with
        | .error _ => Except.ok routeFallback
        | .ok data => Except.ok (parse_route data)) = _
  rw [hapi]
  exact congrArg Except.ok (parse_route_eq data route rs segment ss hroutes hsegs)

/-- Witness for C3: a one-route, one-segment response with 12345 m total
distance, 125 s duration and one 500 m step. -/
theorem c3_route_success_conversions_witness :
    get_route (Except.ok ⟨some [⟨some "Vancouver", some 49, some (-123)⟩]⟩)
      (fun _ _ => Except.ok ⟨some [⟨some [⟨some 12345, some 125,
        some [⟨some "Head north", some 500⟩]⟩]⟩]⟩)
      "Vancouver" "Vancouver" = Except.ok
      { distance := round1 ((12345 : ℚ) / 1000)
        duration := round1 ((125 : ℚ) / 60)
        steps := [{ instruction := "Head north", distance := round2 ((500 : ℚ) / 1000) }] }
    ∧ round1 ((12345 : ℚ) / 1000) = 123/10
    ∧ round1 ((125 : ℚ) / 60) = 21/10 :=
  c3_route_success_conversions ⟨some [⟨some "Vancouver", some 49, some (-123)⟩]⟩
    (fun _ _ => Except.ok ⟨some [⟨some [⟨some 12345, some 125,
      some [⟨some "Head north", some 500⟩]⟩]⟩]⟩)
    "Vancouver" "Vancouver"
    ⟨some [⟨some [⟨some 12345, some 125, some [⟨some "Head north", some 500⟩]⟩]⟩]⟩
    ⟨some [⟨some 12345, some 125, some [⟨some "Head north", some 500⟩]⟩]⟩ []
    ⟨some 12345, some 125, some [⟨some "Head north", some 500⟩]⟩ [] rfl rfl rfl

/-- C4: coordinate resolution scans the fetched city list for a
case-insensitive exact name match; with no match it returns the
`(None, None)` sentinel, and with a match it returns a matching entry's
latitude/longitude pair. -/
theorem c4_coordinates_resolution (g : GeoData) (city : String) :
    get_coordinates (Except.ok g) city = Except.ok (coords_scan (cityListOf g) city)
    ∧ ((∀ c ∈ cityListOf g, strLower c.name ≠ strLower city) →
        coords_scan (cityListOf g) city = (none, none))
    ∧ (∀ c ∈ cityListOf g, strLower c.name = strLower city →
        ∃ c', c' ∈ cityListOf g ∧ strLower c'.name = strLower city ∧
          coords_scan (cityListOf g) city = (some c'.latitude, some c'.longitude)) :=
  ⟨rfl, coords_scan_no_match _ _, coords_scan_match _ _⟩

/-- Witness for C4: in a one-city list, "VANCOUVER" resolves to
Vancouver's coordinates and "Kelowna" to the sentinel. -/
theorem c4_coordinates_resolution_witness :
    (∃ c', c' ∈ cityListOf ⟨some [⟨some "Vancouver", some 49, some (-123)⟩]⟩ ∧
      strLower c'.name = strLower "VANCOUVER" ∧
      coords_scan (cityListOf ⟨some [⟨some "Vancouver", some 49, some (-123)⟩]⟩) "VANCOUVER"
        = (some c'.latitude, some c'.longitude))
    ∧ coords_scan (cityListOf ⟨some [⟨some "Vancouver", some 49, some (-123)⟩]⟩) "Kelowna"
        = (none, none) := by
  constructor
  · exact (c4_coordinates_resolution ⟨some [⟨some "Vancouver", some 49, some (-123)⟩]⟩
      "VANCOUVER").2.2 ⟨"Vancouver", 49, -123⟩ (List.mem_singleton.mpr rfl) (by decide)
  · refine (c4_coordinates_resolution ⟨some [⟨some "Vancouver", some 49, some (-123)⟩]⟩
      "Kelowna").2.1 fun c hc => ?_
    rcases List.mem_singleton.mp hc with rfl
    decide

/-- C5: `get_route` returns the zeroed fallback whenever the routing call
raised or its response has missing/empty route data; consequently, when
the routing API yields no route for a null coordinate (as it does for the
`(None, None)` sentinel the code sends), any start or end city absent from
the fetched city list also produces the zeroed fallback. -/
theorem c5_route_fallback (g : GeoData)
    (api : Option ℚ × Option ℚ → Option ℚ × Option ℚ → Except String RoutesData)
    (s t : String) :
    (no_route_data (api (lonLat (cityListOf g) s) (lonLat (cityListOf g) t)) →
      get_route (Except.ok g) api s t = Except.ok routeFallback)
    ∧ ((∀ p q : Option ℚ × Option ℚ,
          p.1 = none ∨ p.2 = none ∨ q.1 = none ∨ q.2 = none → no_route_data (api p q)) →
        ((∀ c ∈ cityListOf g, strLower c.name ≠ strLower s) ∨
         (∀ c ∈ cityListOf g, strLower c.name ≠ strLower t)) →
        get_route (Except.ok g) api s t = Except.ok routeFallback) := by
  have hmain : no_route_data (api (lonLat (cityListOf g) s) (lonLat (cityListOf g) t)) →
      get_route (Except.ok g) api s t = Except.ok routeFallback := by
    intro hnr
    show (match api (lonLat (cityListOf g) s) (lonLat (cityListOf g) t) with
          | .error _ => Except.ok routeFallback
          | .ok data => Except.ok (parse_route data)) = _
    cases hq : api (lonLat (cityListOf g) s) (lonLat (cityListOf g) t) with
    | error e => rfl
    | ok data =>
      rw [hq] at hnr
      rcases data with ⟨dr⟩
      rcases hnr with hx | hx
      · have : dr = none := hx
        subst this
        rfl
      · have : dr = some [] := hx
        subst this
        rfl
  refine ⟨hmain, fun hnull hmiss => hmain (hnull _ _ ?_)⟩
  rcases hmiss with hm | hm
  · refine Or.inl ?_
    show (coords_scan (cityListOf g) s).2 = none
    rw [coords_scan_no_match _ _ hm]
  · refine Or.inr (Or.inr (Or.inl ?_))
    show (coords_scan (cityListOf g) t).2 = none
    rw [coords_scan_no_match _ _ hm]

/-- Witness for C5: with a routing call that raises, and with an end city
absent from the one-city list under an api that yields no route for null
coordinates, `get_route` returns the zeroed fallback both ways. -/
theorem c5_route_fallback_witness :
    get_route (Except.ok ⟨some [⟨some "Vancouver", some 49, some (-123)⟩]⟩)
      (fun _ _ => Except.error "routing API unreachable") "Vancouver" "Vancouver"
      = Except.ok routeFallback
    ∧ get_route (Except.ok ⟨some [⟨some "Vancouver", some 49, some (-123)⟩]⟩)
      (fun p _ => if p.1.isSome then Except.ok ⟨some []⟩ else Except.ok ⟨none⟩)
      "Vancouver" "Nowhere" = Except.ok routeFallback := by
  constructor
  · exact (c5_route_fallback ⟨some [⟨some "Vancouver", some 49, some (-123)⟩]⟩
      (fun _ _ => Except.error "routing API unreachable") "Vancouver" "Vancouver").1 trivial
  · refine (c5_route_fallback ⟨some [⟨some "Vancouver", some 49, some (-123)⟩]⟩
      (fun p _ => if p.1.isSome then Except.ok ⟨some []⟩ else Except.ok ⟨none⟩)
      "Vancouver" "Nowhere").2 (fun p q hpq => ?_) (Or.inr fun c hc => ?_)
    · show no_route_data (if p.1.isSome then Except.ok ⟨some []⟩ else Except.ok ⟨none⟩)
      split
      · exact Or.inr rfl
      · exact Or.inl rfl
    · rcases List.mem_singleton.mp hc with rfl
      decide

/-- C6: on a successful weather response, `get_weather` returns the
temperature converted from Kelvin to Celsius rounded to 1 decimal, and
273.15 K yields exactly 0.0 degrees. -/
theorem c6_kelvin_to_celsius (k : ℚ) (d : String) :
    get_weather (Except.ok ⟨some k, some d⟩)
      = Except.ok ⟨some (PyVal.num (round1 (k - 27315/100))), some d⟩
    ∧ get_weather (Except.ok ⟨some (27315/100), some "clear"⟩)
      = Except.ok ⟨some (PyVal.num 0), some "clear"⟩ := by
  refine ⟨rfl, ?_⟩
  have hz : round1 ((27315 : ℚ)/100 - 27315/100) = 0 := by norm_num [round1]
  show Except.ok (WeatherDict.mk (some (PyVal.num (round1 ((27315 : ℚ)/100 - 27315/100))))
      (some "clear"))
    = (Except.ok (WeatherDict.mk (some (PyVal.num 0)) (some "clear")) : Except String WeatherDict)
  rw [hz]

/-- C7: the summary `index` persists carries exactly three values — the route's distance,
duration and step count — two route results that agree on those three
values (but may differ in their per-step instruction lists) persist
identically, so the full step list is never stored. -/
theorem c7_summary_excludes_steps (r r1 r2 : RouteResult)
    (hd : r1.distance = r2.distance) (hu : r1.duration = r2.duration)
    (hn : r1.steps.length = r2.steps.length) :
    route_summary_of (some r) =
      { distance := r.distance, duration := r.duration, steps_count := r.steps.length }
    ∧ route_summary_of (some r1) = route_summary_of (some r2) := by
  refine ⟨rfl, ?_⟩
  show RouteSummary.mk r1.distance r1.duration r1.steps.length
      = RouteSummary.mk r2.distance r2.duration r2.steps.length
  rw [hd, hu, hn]

/-- Witness for C7: two routes with the same distance, duration and step
count but different step instructions persist the same summary. -/
theorem c7_summary_excludes_steps_witness :
    route_summary_of (some ⟨100, 90, [⟨"Turn left onto Oak St", 1⟩]⟩)
      = route_summary_of (some ⟨100, 90, [⟨"Turn right onto Elm St", 1⟩]⟩) :=
  (c7_summary_excludes_steps routeFallback
    ⟨100, 90, [⟨"Turn left onto Oak St", 1⟩]⟩
    ⟨100, 90, [⟨"Turn right onto Elm St", 1⟩]⟩ rfl rfl rfl).2

/-- C8 counterexample: when the storage client cannot be obtained
(`get_mongodb_client` returned `None`), `get_travel_history` falls through
its `if client:` guard and returns Python `None` — not an empty sequence,
contradicting "on any storage failure it returns an empty sequence". -/
theorem c8_client_none_counterexample :
    get_travel_history none = none ∧ get_travel_history none ≠ some [] :=
  ⟨rfl, fun h => Option.noConfusion h⟩

/-- C8 (amended): with a usable storage client, the history listing
returns the stored records as a permutation sorted by timestamp in
non-increasing order, and returns an empty sequence when the listing
query raises; but when the client cannot be created it returns a null
value (Python `None`) instead of a sequence. -/
theorem c8_history_sorted (recs : List TravelRecord) (e : String) :
    (∃ out, get_travel_history (some (Except.ok recs)) = some out ∧
      out.Perm recs ∧ out.Pairwise (fun a b => b.timestamp ≤ a.timestamp))
    ∧ get_travel_history (some (Except.error e)) = some []
    ∧ get_travel_history none = none := by
  refine ⟨⟨recs.mergeSort tsDesc, rfl, List.mergeSort_perm recs tsDesc, ?_⟩, rfl, rfl⟩
  have hs := @List.sorted_mergeSort TravelRecord tsDesc tsDesc_trans tsDesc_total recs
  exact hs.imp fun h => by
    simpa only [tsDesc, decide_eq_true_eq] using h

/-- C9: the geo lookup has no error guard — a transport or parsing failure
of the geo API propagates uncaught through `get_bc_cities`, through
`get_coordinates`, and through `get_route` (whose coordinate resolution
happens before its try block), aborting the whole request. -/
theorem c9_geo_failure_propagates (e : String) (city s t : String)
    (api : Option ℚ × Option ℚ → Option ℚ × Option ℚ → Except String RoutesData) :
    get_bc_cities (Except.error e) = Except.error e
    ∧ get_coordinates (Except.error e) city = Except.error e
    ∧ get_route (Except.error e) api s t = Except.error e :=
  ⟨rfl, rfl, rfl⟩

/-- C10: the advice rule is total over degraded weather inputs — a `None`
argument, the fallback record, or a dict lacking the description key all
read as the empty description, which matches no bad-weather substring, so
at any hour from 5 to 22 two failed weather lookups still give the
good-time message. -/
theorem c10_advice_total_on_degraded (ws we : Option WeatherDict) (h : ℕ)
    (h5 : 5 ≤ h) (h22 : h ≤ 22)
    (hws : ws = none ∨ ws = some weatherFallback ∨ ∃ t, ws = some ⟨t, none⟩)
    (hwe : we = none ∨ we = some weatherFallback ∨ ∃ t, we = some ⟨t, none⟩) :
    descOf ws = "" ∧ descOf we = "" ∧ get_travel_advice ws we h = goodMsg := by
  have hdw : descOf ws = "" := by
    rcases hws with rfl | rfl | ⟨t, rfl⟩ <;> rfl
  have hde : descOf we = "" := by
    rcases hwe with rfl | rfl | ⟨t, rfl⟩ <;> rfl
  refine ⟨hdw, hde, ?_⟩
  have hfalse : (bad_weather_conditions.any fun condition =>
      containsSub condition (strLower "")) = false := by decide
  simp only [get_travel_advice, hdw, hde, hfalse, Bool.or_self]
  rw [if_neg Bool.false_ne_true, if_neg (by omega : ¬(23 ≤ h ∨ h ≤ 4))]
  rfl

/-- Witness for C10: a `None` start weather and a fallback end weather at
hour 10 still produce the good-time message. -/
theorem c10_advice_total_on_degraded_witness :
    descOf none = "" ∧ descOf (some weatherFallback) = ""
    ∧ get_travel_advice none (some weatherFallback) 10 = goodMsg :=
  c10_advice_total_on_degraded none (some weatherFallback) 10 (by decide) (by decide)
    (Or.inl rfl) (Or.inr (Or.inl rfl))

end SmartTravel
